import Mathlib

/-!
Verification of the `uv-starter` repository: a FastAPI endpoint that adds
two integers (`src/uv_starter/api/main.py`) and a pydantic-settings based
configuration loader (`src/uv_starter/config.py`).

The request handler is embedded over a small JSON value type; the settings
loader is embedded as a pure construction function over association lists
for the process environment and the optional env file.  The `lru_cache`
around `get_settings` is embedded as an explicit cache state with
construction identities, so that "same instance" and "new instance" are
expressible.
-/

namespace UvStarter

/-- JSON values, as delivered to the endpoint after the framework parses the
request body.  A number literal with a decimal point or exponent (read by
Python as a float) is kept in decimal form, `float m e` denoting
`m / 10 ^ e`, so that integrality is exact. -/
inductive Json where
  | null : Json
  | bool (b : Bool) : Json
  | int (n : Int) : Json
  | float (m : Int) (e : Nat) : Json
  | str (s : String) : Json
  | arr (xs : List Json) : Json
  | obj (fields : List (String × Json)) : Json

/-- Look a field up in a JSON object; `none` when the value is not an object
or the key is absent. -/
def getField (name : String) (j : Json) : Option Json :=
  match j with
  | Json.obj fields => (fields.find? (fun p => p.1 == name)).map (·.2)
  | _ => none

/-- ASCII-whitespace trim applied by lax coercion before parsing. -/
def trimWS (s : String) : String :=
  String.mk (((s.data.dropWhile Char.isWhitespace).reverse.dropWhile Char.isWhitespace).reverse)

/-- Numeric value of a list of decimal digits. -/
def digitsToNat (cs : List Char) : Nat :=
  cs.foldl (fun acc c => acc * 10 + (c.toNat - 48)) 0

/-- A nonempty, all-digit character list read as a nonnegative integer. -/
def parseDigits (cs : List Char) : Option Int :=
  if !cs.isEmpty && cs.all Char.isDigit then some (Int.ofNat (digitsToNat cs))
  else none

/-- A base-10 numeral with an optional leading sign. -/
def parseSignDigits (t : String) : Option Int :=
  match t.data with
  | [] => none
  | c :: rest =>
    if c == '-' then (parseDigits rest).map (fun n => -n)
    else if c == '+' then parseDigits rest
    else parseDigits (c :: rest)

/-- pydantic-core's strip helper: when the string has a decimal point
followed only by zeros, return the part before the point. -/
def strip_decimal_zeros (t : String) : Option String :=
  if t.data.contains '.' then
    if ((t.data.dropWhile (fun c => c != '.')).drop 1).all (fun c => c == '0') then
      some (String.mk (t.data.takeWhile (fun c => c != '.')))
    else none
  else none

/-- pydantic-core's strip helper: when the string contains underscores,
return it with all underscores removed. -/
def strip_underscores (t : String) : Option String :=
  if t.data.contains '_' then some (String.mk (t.data.filter (fun c => c != '_')))
  else none

/-- String-to-int coercion used by pydantic for an `int` field fed from a
string source (pydantic-core's `str_as_int`): the trimmed string must be a
signed base-10 numeral, either directly, or after dropping a trailing
all-zero decimal fraction, or else after removing underscores. -/
def str_as_int (s : String) : Option Int :=
  let t := trimWS s
  match parseSignDigits t with
  | some n => some n
  | none =>
    match strip_decimal_zeros t with
    | some t2 => parseSignDigits t2
    | none =>
      match strip_underscores t with
      | some t3 => parseSignDigits t3
      | none => none

/-- Powers of ten, for the decimal scale of JSON float literals. -/
def pow10 : Nat → Int
  | 0 => 1
  | n + 1 => 10 * pow10 n

/-- The integer view of a JSON value under pydantic's lax coercion: a JSON
integer is taken as is, a JSON float is accepted when its fractional part
is zero, a JSON string is accepted when lax string-to-int coercion parses
it; booleans, null, arrays and objects are rejected. -/
def asInt : Json → Option Int
  | Json.int n => some n
  | Json.float m e => if m % pow10 e == 0 then some (m / pow10 e) else none
  | Json.str s => str_as_int s
  | _ => none

/-- `RequestPayload` from `api/main.py`: `num_1: int`, `num_2: int`.
Python's `int` is arbitrary precision, so the fields are `Int`. -/
structure RequestPayload where
  num_1 : Int
  num_2 : Int
deriving DecidableEq, Repr

/-- Modelled from the spec: `uv_starter.demo_module.add` is imported by
`api/main.py` but `demo_module` is not part of the provided sources; the
spec states the handler computes `sum = num_1 + num_2` with
arbitrary-precision signed addition. -/
def add (a b : Int) : Int := a + b

/-- Validation of a request body against `RequestPayload`: both fields must
be present and hold values that lax coercion reads as integers. -/
def parsePayload (j : Json) : Except String RequestPayload :=
  match (getField "num_1" j).bind asInt, (getField "num_2" j).bind asInt with
  | some a, some b => Except.ok { num_1 := a, num_2 := b }
  | _, _ => Except.error "validation error"

/-- The `root` handler body from `api/main.py`: a JSON object whose single
field `message` holds the text `the sum is ` followed by the decimal value
of `add` applied to the two payload fields. -/
def root (p : RequestPayload) : Json :=
  Json.obj [("message", Json.str ("the sum is " ++ toString (add p.num_1 p.num_2)))]

/-- `POST /` as a whole: status 200 with the handler's body when the payload
validates, status 422 with an error body otherwise. -/
def handlePost (j : Json) : Nat × Json :=
  match parsePayload j with
  | Except.ok p => (200, root p)
  | Except.error e => (422, Json.obj [("detail", Json.str e)])

/-- The settings value object from `config.py` (`log_level` is a string
constrained to the `Literal` alternatives by construction). -/
structure Settings where
  app_name : String
  debug : Bool
  log_level : String
  database_url : String
  api_host : String
  api_key : String
  secret_key : String
  api_port : Int
deriving DecidableEq, Repr

/-- The hardcoded field defaults of `Settings`. -/
def defaultSettings : Settings :=
  { app_name := "uv-starter"
  , debug := false
  , log_level := "INFO"
  , database_url := "sqlite:///./app.db"
  , api_host := "localhost"
  , api_key := ""
  , secret_key := "dev-secret-key"
  , api_port := 8000 }

/-- An environment: a list of key/value pairs (process environment or the
parsed `.env` file). -/
abbrev EnvList := List (String × String)

/-- ASCII-lowercase a string (applied to keys and to boolean literals when
matching case-insensitively). -/
def lowerKey (s : String) : String := String.mk (s.data.map Char.toLower)

/-- Case-insensitive lookup of a (lowercase) field name among environment
keys, as `case_sensitive=False` does in the settings sources. -/
def lookupCI (name : String) (l : EnvList) : Option String :=
  (l.find? (fun p => lowerKey p.1 == name)).map (·.2)

/-- The raw string chosen for a field: the process environment wins over the
env file; `none` when neither provides the key. -/
def rawOf (env file : EnvList) (name : String) : Option String :=
  match lookupCI name env with
  | some v => some v
  | none => lookupCI name file

/-- The lowercase field names of `Settings`; keys outside this list never
reach a field (`extra="ignore"`). -/
def fieldNames : List String :=
  ["app_name", "debug", "log_level", "database_url",
   "api_host", "api_port", "api_key", "secret_key"]

/-- String-to-bool coercion used by pydantic for a `bool` field fed from a
string source: case-insensitively, `0/off/f/false/n/no` mean false and
`1/on/t/true/y/yes` mean true; everything else fails. -/
def str_as_bool (s : String) : Option Bool :=
  let t := lowerKey s
  if t == "0" || t == "off" || t == "f" || t == "false" || t == "n" || t == "no" then
    some false
  else if t == "1" || t == "on" || t == "t" || t == "true" || t == "y" || t == "yes" then
    some true
  else
    none

/-- `validate_port` from `config.py`: accept `v` when `1 <= v <= 65535`,
otherwise raise a validation error naming the constraint. -/
def validate_port (v : Int) : Except String Int :=
  if 1 ≤ v ∧ v ≤ 65535 then Except.ok v
  else Except.error "api_port: Port must be between 1 and 65535"

/-- A plain string field: the selected raw value, or the default. -/
def fieldStr (env file : EnvList) (name default : String) : String :=
  (rawOf env file name).getD default

/-- The `debug: bool` field: default `False`, raw strings go through bool
coercion. -/
def fieldDebug (env file : EnvList) : Except String Bool :=
  match rawOf env file "debug" with
  | none => Except.ok false
  | some s =>
    match str_as_bool s with
    | some b => Except.ok b
    | none => Except.error "debug: value could not be parsed to a boolean"

/-- The `log_level` field: default `"INFO"`, raw strings must match one of
the `Literal` alternatives exactly. -/
def fieldLogLevel (env file : EnvList) : Except String String :=
  match rawOf env file "log_level" with
  | none => Except.ok "INFO"
  | some s =>
    if s ∈ ["DEBUG", "INFO", "WARNING", "ERROR", "CRITICAL"] then Except.ok s
    else Except.error "log_level: input should be DEBUG, INFO, WARNING, ERROR or CRITICAL"

/-- The `api_port: int` field: default `8000`, raw strings go through int
coercion and then `validate_port` (the validator does not run on the
default, which pydantic leaves unvalidated). -/
def fieldApiPort (env file : EnvList) : Except String Int :=
  match rawOf env file "api_port" with
  | none => Except.ok 8000
  | some s =>
    match str_as_int s with
    | none => Except.error "api_port: value could not be parsed to an integer"
    | some n => validate_port n

/-- `Settings()` construction: defaults overlaid by the env file overlaid by
the process environment, with coercion and validation; any field failure
fails the whole construction. -/
def buildSettings (env file : EnvList) : Except String Settings :=
  match fieldDebug env file, fieldLogLevel env file, fieldApiPort env file with
  | Except.ok debug, Except.ok log_level, Except.ok api_port =>
    Except.ok
      { app_name := fieldStr env file "app_name" "uv-starter"
      , debug := debug
      , log_level := log_level
      , database_url := fieldStr env file "database_url" "sqlite:///./app.db"
      , api_host := fieldStr env file "api_host" "localhost"
      , api_key := fieldStr env file "api_key" ""
      , secret_key := fieldStr env file "secret_key" "dev-secret-key"
      , api_port := api_port }
  | Except.error e, _, _ => Except.error e
  | _, Except.error e, _ => Except.error e
  | _, _, Except.error e => Except.error e

/-- A constructed settings instance together with its identity (Python
object identity, made explicit so "same instance" is expressible). -/
structure SettingsInstance where
  id : Nat
  val : Settings
deriving DecidableEq, Repr

/-- The state of the `lru_cache` around `get_settings`: the number of
constructions performed so far (used to mint fresh identities) and the
cached instance, if any. -/
structure CacheState where
  nextId : Nat
  cached : Option SettingsInstance
deriving DecidableEq, Repr

/-- The cache at process start: nothing constructed, nothing cached. -/
def initialCache : CacheState := { nextId := 0, cached := none }

/-- A cache state is well formed when the cached instance, if any, was
minted before the current counter. -/
def CacheWF (st : CacheState) : Prop :=
  ∀ inst, st.cached = some inst → inst.id < st.nextId

/-- `get_settings()`: return the cached instance when present, otherwise
construct a fresh one (with value `v`, the result of `Settings()`), cache
it and return it. -/
def get_settings (v : Settings) (st : CacheState) : SettingsInstance × CacheState :=
  match st.cached with
  | some inst => (inst, st)
  | none =>
    let inst : SettingsInstance := { id := st.nextId, val := v }
    (inst, { nextId := st.nextId + 1, cached := some inst })

/-- `get_settings.cache_clear()`: drop the cached instance. -/
def cache_clear (st : CacheState) : CacheState :=
  { st with cached := none }

/-- Operations a client can perform against the settings accessor. -/
inductive Op where
  | call : Op
  | reset : Op
deriving DecidableEq, Repr

/-- Run a sequence of accessor operations against a cache state. -/
def runOps (v : Settings) : List Op → CacheState → CacheState
  | [], st => st
  | Op.call :: rest, st => runOps v rest (get_settings v st).2
  | Op.reset :: rest, st => runOps v rest (cache_clear st)

end UvStarter

namespace UvStarter

lemma lookupCI_cons (name k v : String) (rest : EnvList) :
    lookupCI name ((k, v) :: rest) =
      if lowerKey k == name then some v else lookupCI name rest := by
  cases h : (lowerKey k == name) with
  | false => simp [lookupCI, List.find?_cons_of_neg, h]
  | true => simp [lookupCI, List.find?_cons_of_pos, h]

lemma str_as_bool_spec (s : String) :
    str_as_bool s =
      (if lowerKey s ∈ ["0", "off", "f", "false", "n", "no"] then some false
       else if lowerKey s ∈ ["1", "on", "t", "true", "y", "yes"] then some true
       else none) := by
  simp only [str_as_bool, List.mem_cons, List.mem_singleton, Bool.or_eq_true, beq_iff_eq,
    List.not_mem_nil, or_false, or_assoc]

/-- Claim C1: posting a JSON body with integer fields `num_1 = a` and
`num_2 = b` to `POST /` returns status 200 with body message
`the sum is s` where `s` is the decimal representation of `a + b`;
in particular `num_1 = 40`, `num_2 = 2` yields `the sum is 42`. -/
theorem claim_C1 (a b : Int) :
    handlePost (Json.obj [("num_1", Json.int a), ("num_2", Json.int b)]) =
      (200, Json.obj [("message", Json.str ("the sum is " ++ toString (a + b)))]) ∧
    handlePost (Json.obj [("num_1", Json.int 40), ("num_2", Json.int 2)]) =
      (200, Json.obj [("message", Json.str "the sum is 42")]) := by
  exact ⟨rfl, rfl⟩

/-- Claim C7: when no environment variable and no env-file entry matches any
configuration field, construction succeeds and every field takes its
documented default. -/
theorem claim_C7 (env file : EnvList)
    (h : ∀ name, name ∈ fieldNames → rawOf env file name = none) :
    buildSettings env file = Except.ok
      { app_name := "uv-starter"
      , debug := false
      , log_level := "INFO"
      , database_url := "sqlite:///./app.db"
      , api_host := "localhost"
      , api_key := ""
      , secret_key := "dev-secret-key"
      , api_port := 8000 } := by
  have h1 := h "app_name" (by simp [fieldNames])
  have h2 := h "debug" (by simp [fieldNames])
  have h3 := h "log_level" (by simp [fieldNames])
  have h4 := h "database_url" (by simp [fieldNames])
  have h5 := h "api_host" (by simp [fieldNames])
  have h6 := h "api_port" (by simp [fieldNames])
  have h7 := h "api_key" (by simp [fieldNames])
  have h8 := h "secret_key" (by simp [fieldNames])
  simp [buildSettings, fieldDebug, fieldLogLevel, fieldApiPort, fieldStr,
    h1, h2, h3, h4, h5, h6, h7, h8]

/-- Witness for C7 at the empty environment and absent env file. -/
theorem claim_C7_witness :
    buildSettings [] [] = Except.ok
      { app_name := "uv-starter"
      , debug := false
      , log_level := "INFO"
      , database_url := "sqlite:///./app.db"
      , api_host := "localhost"
      , api_key := ""
      , secret_key := "dev-secret-key"
      , api_port := 8000 } :=
  claim_C7 [] [] (fun _ _ => rfl)

/-- Claim C2 counterexample: the strings `8000.0` and `8_000` are not
base-10 integer numerals (they contain characters other than a sign and
digits), yet construction with them as `API_PORT` succeeds with port 8000,
because lax coercion strips an all-zero decimal fraction and underscores. -/
theorem claim_C2_counterexample :
    buildSettings [("api_port", "8000.0")] [] =
      Except.ok { defaultSettings with api_port := 8000 } ∧
    buildSettings [("api_port", "8_000")] [] =
      Except.ok { defaultSettings with api_port := 8000 } ∧
    ("8000.0".data.all (fun c => c.isDigit || c == '-' || c == '+')) = false ∧
    ("8_000".data.all (fun c => c.isDigit || c == '-' || c == '+')) = false := by
  exact ⟨rfl, rfl, by decide, by decide⟩

/-- Claim C2, amended: `Settings` construction accepts an integer port
exactly when it lies in `[1, 65535]`, and a port string exactly when lax
string-to-int coercion (trimmed signed base-10 numeral, possibly after
dropping a trailing all-zero decimal fraction or removing underscores)
yields an integer in that range; everything else fails with a validation
error. -/
theorem claim_C2_amended :
    (∀ v : Int, (∃ n, validate_port v = Except.ok n) ↔ (1 ≤ v ∧ v ≤ 65535)) ∧
    (∀ s : String,
      (∃ st, buildSettings [("api_port", s)] [] = Except.ok st) ↔
      (∃ n, str_as_int s = some n ∧ 1 ≤ n ∧ n ≤ 65535)) := by
  constructor
  · intro v
    by_cases hv : 1 ≤ v ∧ v ≤ 65535 <;> simp [validate_port, hv]
  · intro s
    have hrp : rawOf [("api_port", s)] [] "api_port" = some s := by
      simp [rawOf, lookupCI_cons, show (lowerKey "api_port" == "api_port") = true from by decide]
    have hrd : rawOf [("api_port", s)] [] "debug" = none := by
      simp [rawOf, lookupCI_cons, lookupCI,
        show (lowerKey "api_port" == "debug") = false from by decide]
    have hrl : rawOf [("api_port", s)] [] "log_level" = none := by
      simp [rawOf, lookupCI_cons, lookupCI,
        show (lowerKey "api_port" == "log_level") = false from by decide]
    have hfield : fieldApiPort [("api_port", s)] [] =
        (match str_as_int s with
         | none => Except.error "api_port: value could not be parsed to an integer"
         | some n => validate_port n) := by
      simp [fieldApiPort, hrp]
    have hbuild : buildSettings [("api_port", s)] [] =
        (match fieldApiPort [("api_port", s)] [] with
         | Except.ok n => Except.ok
            { app_name := fieldStr [("api_port", s)] [] "app_name" "uv-starter"
            , debug := false, log_level := "INFO"
            , database_url := fieldStr [("api_port", s)] [] "database_url" "sqlite:///./app.db"
            , api_host := fieldStr [("api_port", s)] [] "api_host" "localhost"
            , api_key := fieldStr [("api_port", s)] [] "api_key" ""
            , secret_key := fieldStr [("api_port", s)] [] "secret_key" "dev-secret-key"
            , api_port := n }
         | Except.error e => Except.error e) := by
      cases hp : fieldApiPort [("api_port", s)] [] <;>
        simp [buildSettings, hp, fieldDebug, fieldLogLevel, hrd, hrl]
    rw [hbuild, hfield]
    cases hi : str_as_int s with
    | none => simp
    | some n =>
      by_cases hn : 1 ≤ n ∧ n ≤ 65535 <;> simp [validate_port, hn]

end UvStarter

namespace UvStarter

lemma rawOf_single_eq (k v name : String) (h : (lowerKey k == name) = true) :
    rawOf [(k, v)] [] name = some v := by
  simp [rawOf, lookupCI_cons, h]

lemma rawOf_single_ne (k v name : String) (h : (lowerKey k == name) = false) :
    rawOf [(k, v)] [] name = none := by
  simp [rawOf, lookupCI_cons, lookupCI, h]

/-- Claim C3 counterexample: the string `"y"` is none of the forms listed in
the claim (`true/1/on/yes/false/0/off/no`, case-insensitively), yet
`Settings` construction with `debug = "y"` succeeds and sets the flag. -/
theorem claim_C3_counterexample :
    buildSettings [("debug", "y")] [] =
      Except.ok { defaultSettings with debug := true } ∧
    lowerKey "y" ∉ ["true", "1", "on", "yes", "false", "0", "off", "no"] := by
  exact ⟨rfl, by decide⟩

/-- Claim C3, amended: boolean coercion of `debug` accepts exactly the forms
`1/on/t/true/y/yes` as true and `0/off/f/false/n/no` as false,
case-insensitively; every other string fails validation. -/
theorem claim_C3_amended (s : String) :
    (buildSettings [("debug", s)] [] =
        Except.ok { defaultSettings with debug := true } ↔
      lowerKey s ∈ ["1", "on", "t", "true", "y", "yes"]) ∧
    (buildSettings [("debug", s)] [] =
        Except.ok { defaultSettings with debug := false } ↔
      lowerKey s ∈ ["0", "off", "f", "false", "n", "no"]) ∧
    (buildSettings [("debug", s)] [] =
        Except.error "debug: value could not be parsed to a boolean" ↔
      ¬ (lowerKey s ∈ ["0", "off", "f", "false", "n", "no"] ∨
         lowerKey s ∈ ["1", "on", "t", "true", "y", "yes"])) := by
  have hb1 : fieldDebug [("debug", s)] [] =
      (match str_as_bool s with
       | some b => Except.ok b
       | none => Except.error "debug: value could not be parsed to a boolean") := by
    simp [fieldDebug, rawOf_single_eq "debug" s "debug" (by decide)]
  have hb2 : fieldLogLevel [("debug", s)] [] = Except.ok "INFO" := by
    simp [fieldLogLevel, rawOf_single_ne "debug" s "log_level" (by decide)]
  have hb3 : fieldApiPort [("debug", s)] [] = Except.ok 8000 := by
    simp [fieldApiPort, rawOf_single_ne "debug" s "api_port" (by decide)]
  have hs1 : fieldStr [("debug", s)] [] "app_name" "uv-starter" = "uv-starter" := by
    simp [fieldStr, rawOf_single_ne "debug" s "app_name" (by decide)]
  have hs2 : fieldStr [("debug", s)] [] "database_url" "sqlite:///./app.db" =
      "sqlite:///./app.db" := by
    simp [fieldStr, rawOf_single_ne "debug" s "database_url" (by decide)]
  have hs3 : fieldStr [("debug", s)] [] "api_host" "localhost" = "localhost" := by
    simp [fieldStr, rawOf_single_ne "debug" s "api_host" (by decide)]
  have hs4 : fieldStr [("debug", s)] [] "api_key" "" = "" := by
    simp [fieldStr, rawOf_single_ne "debug" s "api_key" (by decide)]
  have hs5 : fieldStr [("debug", s)] [] "secret_key" "dev-secret-key" =
      "dev-secret-key" := by
    simp [fieldStr, rawOf_single_ne "debug" s "secret_key" (by decide)]
  have hbuild : buildSettings [("debug", s)] [] =
      (match str_as_bool s with
       | some b => Except.ok { defaultSettings with debug := b }
       | none => Except.error "debug: value could not be parsed to a boolean") := by
    cases hb : str_as_bool s with
    | none => simp [buildSettings, hb1, hb, hb2, hb3]
    | some b =>
      simp [buildSettings, hb1, hb, hb2, hb3, hs1, hs2, hs3, hs4, hs5, defaultSettings]
  rw [hbuild, str_as_bool_spec]
  by_cases hf : lowerKey s ∈ ["0", "off", "f", "false", "n", "no"]
  · have hf' := hf
    simp only [List.mem_cons, List.not_mem_nil, or_false] at hf'
    rcases hf' with he | he | he | he | he | he <;>
      simp [he, hf, defaultSettings]
  · by_cases ht : lowerKey s ∈ ["1", "on", "t", "true", "y", "yes"]
    · have ht' := ht
      simp only [List.mem_cons, List.not_mem_nil, or_false] at ht'
      rcases ht' with he | he | he | he | he | he <;>
        simp [he, ht, defaultSettings]
    · simp [hf, ht]

/-- Claim C4 counterexample: a numeric JSON string and an integral JSON
float are not JSON integers, yet the endpoint coerces them and answers
200 with the sum, contradicting the claim that every non-integer JSON
value for these fields is rejected with 422. -/
theorem claim_C4_counterexample :
    handlePost (Json.obj [("num_1", Json.str "40"), ("num_2", Json.int 2)]) =
      (200, Json.obj [("message", Json.str "the sum is 42")]) ∧
    handlePost (Json.obj [("num_1", Json.float 400 1), ("num_2", Json.int 2)]) =
      (200, Json.obj [("message", Json.str "the sum is 42")]) := by
  exact ⟨rfl, rfl⟩

/-- Claim C4, amended: every request body either yields status 200 or
status 422 (no crash), and it yields 200 exactly when `num_1` and `num_2`
are both present with values lax coercion reads as integers (JSON
integers, floats with zero fractional part, or strings parsing as
integers); any missing field or non-coercible value gives 422. -/
theorem claim_C4_amended (j : Json) :
    ((handlePost j).1 = 200 ∨ (handlePost j).1 = 422) ∧
    ((handlePost j).1 = 200 ↔
      ∃ a b, (getField "num_1" j).bind asInt = some a ∧
             (getField "num_2" j).bind asInt = some b) := by
  cases h1 : (getField "num_1" j).bind asInt <;>
    cases h2 : (getField "num_2" j).bind asInt <;>
      simp [handlePost, parsePayload, h1, h2]

end UvStarter

namespace UvStarter

/-- Claim C5: raw values are selected with the process environment taking
precedence over the env file, key matching is case-insensitive, and a
successfully constructed `Settings` carries, for every field, the selected
raw value (coerced for the typed fields) or the hardcoded default when no
source provides the key. -/
theorem claim_C5 (env file : EnvList) :
    (∀ name v, lookupCI name env = some v → rawOf env file name = some v) ∧
    (∀ name, lookupCI name env = none → rawOf env file name = lookupCI name file) ∧
    (∀ name k v rest, lookupCI name ((k, v) :: rest) =
      if lowerKey k == name then some v else lookupCI name rest) ∧
    (∀ s, buildSettings env file = Except.ok s →
      s.app_name = (rawOf env file "app_name").getD "uv-starter" ∧
      s.database_url = (rawOf env file "database_url").getD "sqlite:///./app.db" ∧
      s.api_host = (rawOf env file "api_host").getD "localhost" ∧
      s.api_key = (rawOf env file "api_key").getD "" ∧
      s.secret_key = (rawOf env file "secret_key").getD "dev-secret-key" ∧
      fieldDebug env file = Except.ok s.debug ∧
      fieldLogLevel env file = Except.ok s.log_level ∧
      fieldApiPort env file = Except.ok s.api_port ∧
      (rawOf env file "debug" = none → s.debug = false) ∧
      (rawOf env file "log_level" = none → s.log_level = "INFO") ∧
      (rawOf env file "api_port" = none → s.api_port = 8000)) := by
  refine ⟨?_, ?_, ?_, ?_⟩
  · intro name v h
    simp [rawOf, h]
  · intro name h
    simp [rawOf, h]
  · intro name k v rest
    exact lookupCI_cons name k v rest
  · intro s hs
    cases hd : fieldDebug env file with
    | error e => simp [buildSettings, hd] at hs
    | ok db =>
      cases hl : fieldLogLevel env file with
      | error e => simp [buildSettings, hd, hl] at hs
      | ok ll =>
        cases hp : fieldApiPort env file with
        | error e => simp [buildSettings, hd, hl, hp] at hs
        | ok ap =>
          simp only [buildSettings, hd, hl, hp, Except.ok.injEq] at hs
          subst hs
          refine ⟨rfl, rfl, rfl, rfl, rfl, rfl, rfl, rfl, ?_, ?_, ?_⟩
          · intro hnone
            have hd2 : fieldDebug env file = Except.ok false := by
              simp [fieldDebug, hnone]
            simpa using hd.symm.trans hd2
          · intro hnone
            have hl2 : fieldLogLevel env file = Except.ok "INFO" := by
              simp [fieldLogLevel, hnone]
            simpa using hl.symm.trans hl2
          · intro hnone
            have hp2 : fieldApiPort env file = Except.ok 8000 := by
              simp [fieldApiPort, hnone]
            simpa using hp.symm.trans hp2

/-- Witness for C5: an uppercase process-environment key beats the env-file
entry for the same field, an env-file entry is used when the process
environment lacks the key, and the constructed value reflects the winning
source. -/
theorem claim_C5_witness :
    rawOf [("APP_NAME", "x")] [("app_name", "y")] "app_name" = some "x" ∧
    rawOf [] [("app_name", "y")] "app_name" = lookupCI "app_name" [("app_name", "y")] ∧
    lookupCI "app_name" [("APP_NAME", "x")] =
      (if lowerKey "APP_NAME" == "app_name" then some "x" else lookupCI "app_name" []) ∧
    ({ app_name := "x", debug := false, log_level := "INFO"
     , database_url := "sqlite:///./app.db", api_host := "localhost"
     , api_key := "", secret_key := "dev-secret-key", api_port := 8000 } : Settings).app_name =
      (rawOf [("APP_NAME", "x")] [("app_name", "y")] "app_name").getD "uv-starter" := by
  have h := claim_C5 [("APP_NAME", "x")] [("app_name", "y")]
  have h2 := claim_C5 [] [("app_name", "y")]
  exact ⟨h.1 "app_name" "x" (by decide),
         h2.2.1 "app_name" (by decide),
         h.2.2.1 "app_name" "APP_NAME" "x" [],
         (h.2.2.2 _ rfl).1⟩

lemma buildSettings_eq_of_rawOf_eq (env file env2 file2 : EnvList)
    (h : ∀ name, name ∈ fieldNames → rawOf env2 file2 name = rawOf env file name) :
    buildSettings env2 file2 = buildSettings env file := by
  have hdeb : fieldDebug env2 file2 = fieldDebug env file := by
    unfold fieldDebug
    rw [h "debug" (by simp [fieldNames])]
  have hll : fieldLogLevel env2 file2 = fieldLogLevel env file := by
    unfold fieldLogLevel
    rw [h "log_level" (by simp [fieldNames])]
  have hap : fieldApiPort env2 file2 = fieldApiPort env file := by
    unfold fieldApiPort
    rw [h "api_port" (by simp [fieldNames])]
  have hstr : ∀ name default, name ∈ fieldNames →
      fieldStr env2 file2 name default = fieldStr env file name default := by
    intro name default hn
    unfold fieldStr
    rw [h name hn]
  simp only [buildSettings, hdeb, hll, hap,
    hstr "app_name" "uv-starter" (by simp [fieldNames]),
    hstr "database_url" "sqlite:///./app.db" (by simp [fieldNames]),
    hstr "api_host" "localhost" (by simp [fieldNames]),
    hstr "api_key" "" (by simp [fieldNames]),
    hstr "secret_key" "dev-secret-key" (by simp [fieldNames])]

/-- Claim C10: a key whose lowercase form is not a configuration field name
never affects construction, whether it appears in the process environment
or in the env file: the result is identical with and without the binding,
so unknown keys are ignored and never cause a validation error. -/
theorem claim_C10 (k v : String) (env file : EnvList) (h : lowerKey k ∉ fieldNames) :
    buildSettings ((k, v) :: env) file = buildSettings env file ∧
    buildSettings env ((k, v) :: file) = buildSettings env file := by
  have hk : ∀ name, name ∈ fieldNames → (lowerKey k == name) = false := by
    intro name hn
    exact beq_eq_false_iff_ne.mpr (fun he => h (he ▸ hn))
  constructor
  · apply buildSettings_eq_of_rawOf_eq
    intro name hn
    simp [rawOf, lookupCI_cons, hk name hn]
  · apply buildSettings_eq_of_rawOf_eq
    intro name hn
    cases hle : lookupCI name env <;>
      simp [rawOf, hle, lookupCI_cons, hk name hn]

/-- Witness for C10 at the key `UNKNOWN_FIELD`, which matches no field,
placed once in the process environment and once in the env file. -/
theorem claim_C10_witness :
    lowerKey "UNKNOWN_FIELD" ∉ fieldNames ∧
    buildSettings [("UNKNOWN_FIELD", "should-be-ignored")] [] = buildSettings [] [] ∧
    buildSettings [] [("UNKNOWN_FIELD", "should-be-ignored")] = buildSettings [] [] :=
  ⟨by decide,
   (claim_C10 "UNKNOWN_FIELD" "should-be-ignored" [] [] (by decide)).1,
   (claim_C10 "UNKNOWN_FIELD" "should-be-ignored" [] [] (by decide)).2⟩

end UvStarter

namespace UvStarter

lemma get_settings_cached (v : Settings) (st : CacheState) (inst : SettingsInstance)
    (hc : st.cached = some inst) : get_settings v st = (inst, st) := by
  cases st with
  | mk n c =>
    simp only at hc
    subst hc
    rfl

lemma runOps_append (v : Settings) (ops1 ops2 : List Op) (st : CacheState) :
    runOps v (ops1 ++ ops2) st = runOps v ops2 (runOps v ops1 st) := by
  induction ops1 generalizing st with
  | nil => rfl
  | cons op rest ih =>
    cases op <;> simp [runOps, ih]

lemma runOps_no_call (v : Settings) (ops : List Op) (st : CacheState)
    (h : Op.call ∉ ops) (hc : st.cached = none) : runOps v ops st = st := by
  induction ops with
  | nil => rfl
  | cons op rest ih =>
    cases op with
    | call => simp at h
    | reset =>
      have h' : Op.call ∉ rest := fun hm => h (List.mem_cons_of_mem _ hm)
      have hclear : cache_clear st = st := by
        cases st with
        | mk n c =>
          simp only at hc
          subst hc
          rfl
      rw [runOps, hclear]
      exact ih h'

lemma runOps_no_reset (v : Settings) (ops : List Op) (st : CacheState)
    (inst : SettingsInstance) (h : Op.reset ∉ ops) (hc : st.cached = some inst) :
    runOps v ops st = st := by
  induction ops with
  | nil => rfl
  | cons op rest ih =>
    cases op with
    | reset => simp at h
    | call =>
      have h' : Op.reset ∉ rest := fun hm => h (List.mem_cons_of_mem _ hm)
      rw [runOps, get_settings_cached v st inst hc]
      exact ih h'

/-- Claim C6: two accessor calls with no intervening reset return the same
instance (from any well-formed cache state, whatever values construction
would produce meanwhile), and the first call after an explicit cache reset
returns an instance with a fresh identity. -/
theorem claim_C6 (v v2 v3 : Settings) (st : CacheState) (hwf : CacheWF st) :
    (get_settings v2 (get_settings v st).2).1 = (get_settings v st).1 ∧
    (get_settings v3 (cache_clear (get_settings v st).2)).1.id ≠
      (get_settings v st).1.id := by
  cases st with
  | mk n c =>
    cases c with
    | none =>
      refine ⟨rfl, ?_⟩
      simp [get_settings, cache_clear]
    | some inst =>
      have hlt : inst.id < n := hwf inst rfl
      refine ⟨rfl, ?_⟩
      simp [get_settings, cache_clear]
      omega

/-- Witness for C6 starting from the initial (empty, well-formed) cache. -/
theorem claim_C6_witness :
    CacheWF initialCache ∧
    (get_settings defaultSettings (get_settings defaultSettings initialCache).2).1 =
      (get_settings defaultSettings initialCache).1 ∧
    (get_settings defaultSettings
        (cache_clear (get_settings defaultSettings initialCache).2)).1.id ≠
      (get_settings defaultSettings initialCache).1.id := by
  have hwf : CacheWF initialCache := by
    intro inst h
    simp [initialCache] at h
  exact ⟨hwf, claim_C6 defaultSettings defaultSettings defaultSettings initialCache hwf⟩

/-- Claim C8: the cached instance is immutable: reading a populated cache
returns exactly the stored instance and leaves the state untouched
(whatever the ambient environment `w` now says), and a freshly constructed
instance stores exactly the constructed field values, which later reads
observe unchanged even under a different ambient environment `u`. -/
theorem claim_C8 (v u w : Settings) (st : CacheState) :
    (∀ inst, st.cached = some inst → get_settings w st = (inst, st)) ∧
    (st.cached = none →
      (get_settings v st).1.val = v ∧
      (get_settings v st).2.cached = some (get_settings v st).1 ∧
      (get_settings u (get_settings v st).2).1.val = v) := by
  constructor
  · intro inst hc
    exact get_settings_cached w st inst hc
  · intro hc
    cases st with
    | mk n c =>
      simp only at hc
      subst hc
      exact ⟨rfl, rfl, rfl⟩

/-- Witness for C8: a populated cache returns its stored instance unchanged,
and a fresh construction stores the constructed values. -/
theorem claim_C8_witness :
    get_settings defaultSettings
        { nextId := 1, cached := some { id := 0, val := defaultSettings } } =
      ({ id := 0, val := defaultSettings },
       { nextId := 1, cached := some { id := 0, val := defaultSettings } }) ∧
    (get_settings defaultSettings initialCache).1.val = defaultSettings := by
  exact ⟨(claim_C8 defaultSettings defaultSettings defaultSettings _).1 _ rfl,
         ((claim_C8 defaultSettings defaultSettings defaultSettings initialCache).2 rfl).1⟩

/-- Claim C9: construction is lazy: a run with no accessor call performs no
construction, and in a run whose first call happens after any call-free
prelude, that first access constructs the single instance (identity 0) and
every later access without a reset reuses it, the construction count
staying at one. -/
theorem claim_C9 (v : Settings) (ops pre post : List Op) :
    (Op.call ∉ ops → (runOps v ops initialCache).nextId = 0) ∧
    (Op.call ∉ pre → Op.reset ∉ post →
      runOps v (pre ++ Op.call :: post) initialCache =
        { nextId := 1, cached := some { id := 0, val := v } }) := by
  constructor
  · intro h
    rw [runOps_no_call v ops initialCache h rfl]
    rfl
  · intro h1 h2
    rw [runOps_append, runOps_no_call v pre initialCache h1 rfl, runOps,
      show (get_settings v initialCache).2 =
        { nextId := 1, cached := some { id := 0, val := v } } from rfl]
    exact runOps_no_reset v post _ { id := 0, val := v } h2 rfl

/-- Witness for C9: a reset-only run constructs nothing; a call followed by
a second call constructs exactly once and keeps the instance. -/
theorem claim_C9_witness :
    (runOps defaultSettings [Op.reset] initialCache).nextId = 0 ∧
    runOps defaultSettings ([] ++ Op.call :: [Op.call]) initialCache =
      { nextId := 1, cached := some { id := 0, val := defaultSettings } } := by
  exact ⟨(claim_C9 defaultSettings [Op.reset] [] [Op.call]).1 (by decide),
         (claim_C9 defaultSettings [Op.reset] [] [Op.call]).2 (by decide) (by decide)⟩

end UvStarter
